import Mathlib

/-!
Shallow embedding of the N4PCC collaboration-platform backend (TypeScript),
covering the authorization engine (`src/services/authorization.ts` — embedded
here from the copy appended to `src/graphql/schema.ts`), the GraphQL resolvers
(`src/graphql/schema.ts`), the REST auth middleware (`src/middleware/auth.ts`),
the auth routes (`src/routes/auth.ts`), the credential/device utilities
(`src/utils/auth.ts`) and the configuration defaults (`src/config/index.ts`).

The relational store is modelled as explicit lists of rows; each SQL statement
in the source is translated to the corresponding list operation on the table it
touches.  JWT signing is modelled symbolically: a signed token records its
payload and the signing key, and verification succeeds exactly when the
verifying key equals the signing key (the ideal-MAC abstraction); token expiry
is abstracted away — every modelled token is within its validity window, which
is the regime all the claims below quantify over ("structurally valid and
unexpired").  Randomness (UUID generation) is modelled by passing the generated
identifier as an explicit argument.
-/

namespace N4PCC

/-- `global_status` enum from the schema: `ACTIVE`, `BANNED`, `ADMIN`. -/
inductive GlobalStatus where
  | ACTIVE
  | BANNED
  | ADMIN
deriving DecidableEq, Repr

/-- `workspace_role` enum: `Owner`, `Member`, `Viewer`. -/
inductive WorkspaceRole where
  | Owner
  | Member
  | Viewer
deriving DecidableEq, Repr

/-- `project_role` enum: `Project Lead`, `Contributor`, `Project Viewer`. -/
inductive ProjectRole where
  | ProjectLead
  | Contributor
  | ProjectViewer
deriving DecidableEq, Repr

/-- A row of the `users` table (columns not consulted by the embedded
operations — `password_hash`, `full_name`, timestamps — are omitted). -/
structure User where
  id : String
  email : String
  global_status : GlobalStatus
deriving DecidableEq, Repr

/-- A row of the `workspaces` table. -/
structure WorkspaceRow where
  id : String
  created_by : String
deriving DecidableEq, Repr

/-- A row of the `projects` table. -/
structure ProjectRow where
  id : String
  workspace_id : String
deriving DecidableEq, Repr

/-- A row of the `workspace_members` table; `UNIQUE(workspace_id, user_id)`. -/
structure WorkspaceMemberRow where
  workspace_id : String
  user_id : String
  role : WorkspaceRole
deriving DecidableEq, Repr

/-- A row of the `project_members` table; `UNIQUE(project_id, user_id)`. -/
structure ProjectMemberRow where
  project_id : String
  user_id : String
  role : ProjectRole
deriving DecidableEq, Repr

/-- A row of the `tasks` table (timestamps and `created_by` omitted). -/
structure TaskRow where
  id : String
  project_id : String
  title : String
  status : String
deriving DecidableEq, Repr

/-- A row of the `user_devices` table; `UNIQUE(user_id, device_id)`.
Timestamps are modelled as `Nat` instants supplied by the caller (`NOW()`). -/
structure UserDeviceRow where
  user_id : String
  device_id : String
  ip_address : Option String
  user_agent : Option String
  login_time : Nat
  is_revoked : Bool
  revoked_at : Option Nat
deriving DecidableEq, Repr

/-- The relational store: one list of rows per table the claims touch. -/
structure DB where
  users : List User
  workspaces : List WorkspaceRow
  projects : List ProjectRow
  workspace_members : List WorkspaceMemberRow
  project_members : List ProjectMemberRow
  tasks : List TaskRow
  user_devices : List UserDeviceRow
deriving DecidableEq, Repr

/-- `getUserById` (`src/utils/auth.ts`): `SELECT * FROM users WHERE id = $1`,
returning `rows[0]` (possibly absent). -/
def getUserById (db : DB) (id : String) : Option User :=
  db.users.find? (fun u => u.id == id)

/-- `getUserByEmail` (`src/utils/auth.ts`). -/
def getUserByEmail (db : DB) (email : String) : Option User :=
  db.users.find? (fun u => u.email == email)

/-! ## Authorization engine (`src/services/authorization.ts`) -/

/-- The `roleHierarchy` map `{ Owner: 3, Member: 2, Viewer: 1 }` used by
`checkWorkspaceAccess`. -/
def workspaceRoleHierarchy : WorkspaceRole → Nat
  | .Owner => 3
  | .Member => 2
  | .Viewer => 1

/-- The `roleHierarchy` map `{ 'Project Lead': 3, Contributor: 2,
'Project Viewer': 1 }` used by `checkProjectAccess`. -/
def projectRoleHierarchy : ProjectRole → Nat
  | .ProjectLead => 3
  | .Contributor => 2
  | .ProjectViewer => 1

/-- The string naming a workspace role in error messages. -/
def workspaceRoleName : WorkspaceRole → String
  | .Owner => "Owner"
  | .Member => "Member"
  | .Viewer => "Viewer"

/-- The string naming a project role in error messages. -/
def projectRoleName : ProjectRole → String
  | .ProjectLead => "Project Lead"
  | .Contributor => "Contributor"
  | .ProjectViewer => "Project Viewer"

/-- The `{ hasAccess, role? }` record returned by the two access checks. -/
structure AccessResult (ρ : Type) where
  hasAccess : Bool
  role : Option ρ
deriving DecidableEq, Repr

/-- `checkWorkspaceAccess` (`src/services/authorization.ts`): looks up the
membership row for `(workspaceId, userId)`; no row yields
`{ hasAccess: false }`, a row yields
`{ hasAccess: userLevel >= minimumLevel, role }`. -/
def checkWorkspaceAccess (db : DB) (userId workspaceId : String)
    (minimumRole : WorkspaceRole) : AccessResult WorkspaceRole :=
  match db.workspace_members.find?
      (fun r => r.workspace_id == workspaceId && r.user_id == userId) with
  | none => { hasAccess := false, role := none }
  | some row =>
      { hasAccess :=
          decide (workspaceRoleHierarchy row.role ≥ workspaceRoleHierarchy minimumRole)
        role := some row.role }

/-- `checkProjectAccess` (`src/services/authorization.ts`): structural twin of
`checkWorkspaceAccess` over `project_members`. -/
def checkProjectAccess (db : DB) (userId projectId : String)
    (minimumRole : ProjectRole) : AccessResult ProjectRole :=
  match db.project_members.find?
      (fun r => r.project_id == projectId && r.user_id == userId) with
  | none => { hasAccess := false, role := none }
  | some row =>
      { hasAccess :=
          decide (projectRoleHierarchy row.role ≥ projectRoleHierarchy minimumRole)
        role := some row.role }

/-- `checkWorkspaceOwnership` (`src/services/authorization.ts`):
`SELECT role FROM workspace_members WHERE workspace_id = $1 AND user_id = $2
AND role = 'Owner'`, then `rows.length > 0`. -/
def checkWorkspaceOwnership (db : DB) (userId workspaceId : String) : Bool :=
  db.workspace_members.any
    (fun r => r.workspace_id == workspaceId && r.user_id == userId
      && r.role == .Owner)

/-- `checkProjectLeadAccess` (`src/services/authorization.ts`):
`SELECT role FROM project_members WHERE project_id = $1 AND user_id = $2
AND role = 'Project Lead'`, then `rows.length > 0`. -/
def checkProjectLeadAccess (db : DB) (userId projectId : String) : Bool :=
  db.project_members.any
    (fun r => r.project_id == projectId && r.user_id == userId
      && r.role == .ProjectLead)

/-- `requireWorkspaceAccess` (`src/services/authorization.ts`): throws
`Insufficient permissions: Requires <role> role or higher` when the check
fails. -/
def requireWorkspaceAccess (db : DB) (userId workspaceId : String)
    (minimumRole : WorkspaceRole) : Except String Unit :=
  if (checkWorkspaceAccess db userId workspaceId minimumRole).hasAccess then
    .ok ()
  else
    .error ("Insufficient permissions: Requires " ++ workspaceRoleName minimumRole
      ++ " role or higher")

/-- `requireProjectAccess` (`src/services/authorization.ts`). -/
def requireProjectAccess (db : DB) (userId projectId : String)
    (minimumRole : ProjectRole) : Except String Unit :=
  if (checkProjectAccess db userId projectId minimumRole).hasAccess then
    .ok ()
  else
    .error ("Insufficient permissions: Requires " ++ projectRoleName minimumRole
      ++ " role or higher")

/-! ## Credential store (`src/utils/auth.ts`, `src/config/index.ts`) -/

/-- The `JWTPayload` interface: `{ userId, email, globalStatus }`. -/
structure JWTPayload where
  userId : String
  email : String
  globalStatus : GlobalStatus
deriving DecidableEq, Repr

/-- A symbolic JWT: the signed payload together with the signing key.
Verification (ideal-MAC abstraction) succeeds exactly when the verifying key
equals the signing key; expiry is abstracted (tokens are within their
validity window). -/
structure SignedToken where
  payload : JWTPayload
  key : String
deriving DecidableEq, Repr

/-- The `config.jwt` record (`src/config/index.ts`). -/
structure JwtConfig where
  secret : String
  refreshSecret : String
  expiresIn : String
  refreshExpiresIn : String
deriving DecidableEq, Repr

/-- Construction of `config.jwt` from the environment
(`src/config/index.ts` lines 11–21): each field falls back to its default
when the environment variable is unset.  Note that `JWT_SECRET` and
`JWT_REFRESH_SECRET` share the same default string. -/
def jwtConfigOf (envJwtSecret envJwtRefreshSecret envJwtExpiresIn
    envJwtRefreshExpiresIn : Option String) : JwtConfig :=
  { secret := envJwtSecret.getD "change-this-in-production"
    refreshSecret := envJwtRefreshSecret.getD "change-this-in-production"
    expiresIn := envJwtExpiresIn.getD "15m"
    refreshExpiresIn := envJwtRefreshExpiresIn.getD "7d" }

/-- `generateAccessToken` (`src/utils/auth.ts`): `jwt.sign(payload,
config.jwt.secret, { expiresIn: config.jwt.expiresIn })`. -/
def generateAccessToken (cfg : JwtConfig) (payload : JWTPayload) : SignedToken :=
  { payload := payload, key := cfg.secret }

/-- `generateRefreshToken` (`src/utils/auth.ts`): signed with
`config.jwt.refreshSecret`. -/
def generateRefreshToken (cfg : JwtConfig) (payload : JWTPayload) : SignedToken :=
  { payload := payload, key := cfg.refreshSecret }

/-- `verifyAccessToken` (`src/utils/auth.ts`): `jwt.verify(token,
config.jwt.secret)`; `none` models the thrown verification error. -/
def verifyAccessToken (cfg : JwtConfig) (t : SignedToken) : Option JWTPayload :=
  if t.key == cfg.secret then some t.payload else none

/-- `verifyRefreshToken` (`src/utils/auth.ts`): `jwt.verify(token,
config.jwt.refreshSecret)`. -/
def verifyRefreshToken (cfg : JwtConfig) (t : SignedToken) : Option JWTPayload :=
  if t.key == cfg.refreshSecret then some t.payload else none

/-! ## Device/session registry (`src/utils/auth.ts`) -/

/-- `saveDevice` (`src/utils/auth.ts`): `INSERT INTO user_devices ... ON
CONFLICT (user_id, device_id) DO UPDATE SET login_time = NOW(), is_revoked =
FALSE, revoked_at = NULL, ip_address = $3, user_agent = $4`.  `now` stands for
`NOW()`. -/
def saveDevice (db : DB) (userId deviceId : String)
    (ipAddress userAgent : Option String) (now : Nat) : DB :=
  if db.user_devices.any
      (fun r => r.user_id == userId && r.device_id == deviceId) then
    { db with user_devices := db.user_devices.map (fun r =>
        if r.user_id == userId && r.device_id == deviceId then
          { r with login_time := now, is_revoked := false, revoked_at := none,
                   ip_address := ipAddress, user_agent := userAgent }
        else r) }
  else
    { db with user_devices := db.user_devices ++
        [{ user_id := userId, device_id := deviceId, ip_address := ipAddress,
           user_agent := userAgent, login_time := now, is_revoked := false,
           revoked_at := none }] }

/-- `revokeDevice` (`src/utils/auth.ts`): `UPDATE user_devices SET is_revoked
= TRUE, revoked_at = NOW() WHERE user_id = $1 AND device_id = $2`. -/
def revokeDevice (db : DB) (userId deviceId : String) (now : Nat) : DB :=
  { db with user_devices := db.user_devices.map (fun r =>
      if r.user_id == userId && r.device_id == deviceId then
        { r with is_revoked := true, revoked_at := some now }
      else r) }

/-- `isDeviceRevoked` (`src/utils/auth.ts`): selects `is_revoked` for the
pair and returns `result.rows[0]?.is_revoked || true`.  The optional chain is
the `Option.map`; the JavaScript `|| true` disjunction (with `undefined`
falsy) is reproduced branch for branch. -/
def isDeviceRevoked (db : DB) (userId deviceId : String) : Bool :=
  match (db.user_devices.find?
      (fun r => r.user_id == userId && r.device_id == deviceId)).map
      (fun r => r.is_revoked) with
  | some b => b || true
  | none => true

/-! ## REST auth middleware and routes (`src/middleware/auth.ts`,
`src/routes/auth.ts`) -/

/-- Outcome of the `authenticate` Express middleware: pass control to the
handler, or answer 401/403 with the given error body. -/
inductive AuthOutcome where
  | next (userId : String) (user : User)
  | status401 (error : String)
  | status403 (error : String)
deriving DecidableEq, Repr

/-- `authenticate` (`src/middleware/auth.ts` lines 11–41).  `bearer` is the
token carried by a `Bearer` authorization header (`none` when the header is
absent or not `Bearer`-shaped).  When `getUserById` finds no row, the access
`req.user.global_status` on `undefined` throws, and the surrounding catch
answers 401 `Unauthorized: Invalid token`. -/
def authenticate (db : DB) (cfg : JwtConfig) (bearer : Option SignedToken) :
    AuthOutcome :=
  match bearer with
  | none => .status401 "Unauthorized: No token provided"
  | some t =>
    match verifyAccessToken cfg t with
    | none => .status401 "Unauthorized: Invalid token"
    | some payload =>
      match getUserById db payload.userId with
      | none => .status401 "Unauthorized: Invalid token"
      | some user =>
        if user.global_status == .BANNED then
          .status403 "Access denied: Account is banned"
        else
          .next payload.userId user

/-- Result of `POST /auth/logout` (`src/routes/auth.ts` lines 135–163): the
updated store and whether the `refreshToken` cookie was cleared. -/
structure LogoutResult where
  db : DB
  clearedRefreshCookie : Bool
deriving DecidableEq, Repr

/-- The `/auth/logout` handler body (`src/routes/auth.ts` lines 135–163),
after the `authenticate` middleware has resolved `callerId`.
`refreshTokenPresent` models the truthiness of `req.cookies.refreshToken ||
req.headers['x-refresh-token']`; when present, the handler revokes the device
whose id is the `x-device-id` header, defaulting to the literal `'unknown'`
(the source comments that resolving the real device id is left as a
placeholder).  The refresh cookie is always cleared. -/
def logoutHandler (db : DB) (callerId : String) (refreshTokenPresent : Bool)
    (xDeviceId : Option String) (now : Nat) : LogoutResult :=
  let db' :=
    if refreshTokenPresent then
      revokeDevice db callerId (xDeviceId.getD "unknown") now
    else db
  { db := db', clearedRefreshCookie := true }

/-! ## GraphQL context and resolvers (`src/index.ts`,
`src/graphql/schema.ts`) -/

/-- The GraphQL request context (`src/index.ts`): the resolved user id and
user row, if the bearer token verified.  `ipAddress`/`userAgent` are omitted
(only consumed by the logging sink). -/
structure Context where
  userId : Option String
  user : Option User
deriving DecidableEq, Repr

/-- `getContext` (`src/index.ts` lines 43–68): verifies the bearer token with
`config.jwt.secret` and loads the user row; any verification failure is
swallowed and the request continues with no user.  The user's
`global_status` is loaded but not inspected. -/
def getContext (db : DB) (cfg : JwtConfig) (bearer : Option SignedToken) :
    Context :=
  match bearer with
  | none => { userId := none, user := none }
  | some t =>
    match verifyAccessToken cfg t with
    | none => { userId := none, user := none }
    | some payload =>
        { userId := some payload.userId
          user := getUserById db payload.userId }

/-- The `me` query resolver (`src/graphql/schema.ts`): errors `Unauthorized`
without a resolved user id, otherwise returns the `getUserById` row
(possibly absent) unconditionally. -/
def meResolver (db : DB) (ctx : Context) : Except String (Option User) :=
  match ctx.userId with
  | none => .error "Unauthorized"
  | some uid => .ok (getUserById db uid)

/-- The `taskStatusUpdated` subscription attach (`src/graphql/schema.ts`
lines 976–984): gated by `requireWorkspaceAccess(…, 'Viewer')`; on success
the subscriber is attached to the per-workspace channel, whose key is
returned here in place of the async iterator. -/
def taskStatusUpdatedSubscribe (db : DB) (ctx : Context)
    (workspaceId : String) : Except String String :=
  match ctx.userId with
  | none => .error "Unauthorized"
  | some uid =>
    match requireWorkspaceAccess db uid workspaceId .Viewer with
    | .error e => .error e
    | .ok () => .ok ("TASK_STATUS_UPDATED_" ++ workspaceId)

/-- The `getWorkspace` query resolver (`src/graphql/schema.ts` lines
232–257): access check first, then the row lookup and the member join.  If
the row is absent after the check passes (impossible under the foreign-key
invariant), the JavaScript dereference of `undefined` throws, surfaced as a
generic server error. -/
def getWorkspace (db : DB) (ctx : Context) (id : String) :
    Except String (WorkspaceRow × List WorkspaceMemberRow) :=
  match ctx.userId with
  | none => .error "Unauthorized"
  | some uid =>
    match requireWorkspaceAccess db uid id .Viewer with
    | .error e => .error e
    | .ok () =>
      match db.workspaces.find? (fun w => w.id == id) with
      | some w => .ok (w, db.workspace_members.filter (fun r => r.workspace_id == id))
      | none => .error "Internal server error"

/-- The `getTask` query resolver (`src/graphql/schema.ts` lines 286–309):
looks the task up first, answers `Task not found` when absent, and only then
checks `checkProjectAccess(…, 'Project Viewer')`, answering `Forbidden` on
failure.  The assignment join on the success path is omitted (it does not
affect which of the three observable outcomes occurs). -/
def getTask (db : DB) (ctx : Context) (id : String) : Except String TaskRow :=
  match ctx.userId with
  | none => .error "Unauthorized"
  | some uid =>
    match db.tasks.find? (fun t => t.id == id) with
    | none => .error "Task not found"
    | some task =>
      if (checkProjectAccess db uid task.project_id .ProjectViewer).hasAccess then
        .ok task
      else
        .error "Forbidden"

/-- The `addWorkspaceMember` mutation (`src/graphql/schema.ts` lines
487–513): requires `checkWorkspaceOwnership`, then `INSERT INTO
workspace_members ... VALUES ($1, $2, 'Member') ON CONFLICT DO NOTHING` —
an existing `(workspace_id, user_id)` row is left untouched. -/
def addWorkspaceMember (db : DB) (ctx : Context) (workspaceId userId : String) :
    Except String (DB × Bool) :=
  match ctx.userId with
  | none => .error "Unauthorized"
  | some caller =>
    if checkWorkspaceOwnership db caller workspaceId then
      let conflict := db.workspace_members.any
        (fun r => r.workspace_id == workspaceId && r.user_id == userId)
      let db' :=
        if conflict then db
        else { db with workspace_members := db.workspace_members ++
                 [{ workspace_id := workspaceId, user_id := userId, role := .Member }] }
      .ok (db', true)
    else
      .error "Forbidden: Owner access required"

/-- The authorization gate of `addProjectMember` (`src/graphql/schema.ts`
lines 659–671), instrumented: the second component records whether
`checkWorkspaceOwnership` was evaluated.  Project-lead is checked first; only
when it fails is the project row fetched and workspace ownership consulted. -/
def addProjectMemberGateT (db : DB) (caller projectId : String) :
    Except String Unit × Bool :=
  if checkProjectLeadAccess db caller projectId then (.ok (), false)
  else
    match db.projects.find? (fun p => p.id == projectId) with
    | none => (.error "Project not found", false)
    | some proj =>
      if checkWorkspaceOwnership db caller proj.workspace_id then (.ok (), true)
      else (.error "Forbidden: Project Lead or Workspace Owner access required", true)

/-- The authorization gate of `addProjectMember`, forgetting the
instrumentation. -/
def addProjectMemberGate (db : DB) (caller projectId : String) :
    Except String Unit :=
  (addProjectMemberGateT db caller projectId).1

/-- The `addProjectMember` mutation (`src/graphql/schema.ts` lines 654–696):
gate, then the workspace-membership precondition on the target (`User must
be a workspace member first`), then `INSERT ... VALUES ($1, $2, 'Contributor')
ON CONFLICT DO NOTHING`.  The JavaScript re-fetches `workspace_id` after the
gate; a missing project row there leaves `workspaceId` undefined, so the
target's access check finds no row and fails. -/
def addProjectMember (db : DB) (ctx : Context) (projectId userId : String) :
    Except String (DB × Bool) :=
  match ctx.userId with
  | none => .error "Unauthorized"
  | some caller =>
    match addProjectMemberGate db caller projectId with
    | .error e => .error e
    | .ok () =>
      let hasAccess :=
        match (db.projects.find? (fun p => p.id == projectId)).map
            (fun p => p.workspace_id) with
        | some w => (checkWorkspaceAccess db userId w .Viewer).hasAccess
        | none => false
      if hasAccess then
        let conflict := db.project_members.any
          (fun r => r.project_id == projectId && r.user_id == userId)
        let db' :=
          if conflict then db
          else { db with project_members := db.project_members ++
                   [{ project_id := projectId, user_id := userId, role := .Contributor }] }
        .ok (db', true)
      else
        .error "User must be a workspace member first"

/-- The authorization gate of `removeProjectMember` (`src/graphql/schema.ts`
lines 703–714), duplicated verbatim from `addProjectMember` in the source,
instrumented the same way. -/
def removeProjectMemberGateT (db : DB) (caller projectId : String) :
    Except String Unit × Bool :=
  if checkProjectLeadAccess db caller projectId then (.ok (), false)
  else
    match db.projects.find? (fun p => p.id == projectId) with
    | none => (.error "Project not found", false)
    | some proj =>
      if checkWorkspaceOwnership db caller proj.workspace_id then (.ok (), true)
      else (.error "Forbidden: Project Lead or Workspace Owner access required", true)

/-- The authorization gate of `removeProjectMember`, forgetting the
instrumentation. -/
def removeProjectMemberGate (db : DB) (caller projectId : String) :
    Except String Unit :=
  (removeProjectMemberGateT db caller projectId).1

/-- The `removeProjectMember` mutation (`src/graphql/schema.ts` lines
698–726): gate, then `DELETE FROM project_members WHERE project_id = $1 AND
user_id = $2`. -/
def removeProjectMember (db : DB) (ctx : Context) (projectId userId : String) :
    Except String (DB × Bool) :=
  match ctx.userId with
  | none => .error "Unauthorized"
  | some caller =>
    match removeProjectMemberGate db caller projectId with
    | .error e => .error e
    | .ok () =>
      let db' := { db with project_members := db.project_members.filter (fun r =>
        !(r.project_id == projectId && r.user_id == userId)) }
      .ok (db', true)

/-- The `updateProjectMemberRole` mutation (`src/graphql/schema.ts` lines
728–756): lead check first; on failure the source calls
`checkWorkspaceOwnership(context.userId, projectId)` — passing the PROJECT id
where that function expects a workspace id (line 736) — then `UPDATE
project_members SET role = $1 WHERE project_id = $2 AND user_id = $3`. -/
def updateProjectMemberRole (db : DB) (ctx : Context)
    (projectId userId : String) (role : ProjectRole) :
    Except String (DB × Bool) :=
  match ctx.userId with
  | none => .error "Unauthorized"
  | some caller =>
    if checkProjectLeadAccess db caller projectId
        || checkWorkspaceOwnership db caller projectId then
      let db' := { db with project_members := db.project_members.map (fun r =>
        if r.project_id == projectId && r.user_id == userId then
          { r with role := role }
        else r) }
      .ok (db', true)
    else
      .error "Forbidden: Project Lead or Workspace Owner access required"

end N4PCC

namespace N4PCC

/-- Claim C3: `checkWorkspaceAccess(userId, workspaceId, minimumRole)` returns
`hasAccess=false` with no role whenever no membership row exists for the pair,
regardless of the requested minimum; when a row with role `r` exists it returns
`hasAccess = (level r ≥ level minimumRole)` with that role, under the ordering
Owner=3, Member=2, Viewer=1; hence any member whose role level dominates the
requested minimum passes the check. -/
theorem c3_checkWorkspaceAccess_spec (db : DB) (userId workspaceId : String)
    (minimumRole : WorkspaceRole) :
    (db.workspace_members.find?
        (fun r => r.workspace_id == workspaceId && r.user_id == userId) = none →
      checkWorkspaceAccess db userId workspaceId minimumRole
        = { hasAccess := false, role := none }) ∧
    (∀ row, db.workspace_members.find?
        (fun r => r.workspace_id == workspaceId && r.user_id == userId) = some row →
      checkWorkspaceAccess db userId workspaceId minimumRole
        = { hasAccess := decide (workspaceRoleHierarchy row.role
              ≥ workspaceRoleHierarchy minimumRole),
            role := some row.role }) ∧
    (∀ row, db.workspace_members.find?
        (fun r => r.workspace_id == workspaceId && r.user_id == userId) = some row →
      workspaceRoleHierarchy row.role ≥ workspaceRoleHierarchy minimumRole →
      (checkWorkspaceAccess db userId workspaceId minimumRole).hasAccess = true) := by
  refine ⟨fun h => ?_, fun row h => ?_, fun row h hge => ?_⟩
  · simp [checkWorkspaceAccess, h]
  · simp [checkWorkspaceAccess, h]
  · simp [checkWorkspaceAccess, h, hge]

/-- Witness for C3 at a concrete store: a `Member` row passes the `Viewer`
minimum, and an absent pair yields `hasAccess=false` with no role. -/
theorem c3_checkWorkspaceAccess_witness :
    checkWorkspaceAccess
        { users := [], workspaces := [], projects := [],
          workspace_members := [⟨"w1", "u1", .Member⟩],
          project_members := [], tasks := [], user_devices := [] }
        "u1" "w1" .Viewer
      = { hasAccess := true, role := some .Member } ∧
    checkWorkspaceAccess
        { users := [], workspaces := [], projects := [],
          workspace_members := [⟨"w1", "u1", .Member⟩],
          project_members := [], tasks := [], user_devices := [] }
        "u2" "w1" .Viewer
      = { hasAccess := false, role := none } := by
  have h := c3_checkWorkspaceAccess_spec
    { users := [], workspaces := [], projects := [],
      workspace_members := [⟨"w1", "u1", .Member⟩],
      project_members := [], tasks := [], user_devices := [] }
    "u1" "w1" .Viewer
  have h2 := c3_checkWorkspaceAccess_spec
    { users := [], workspaces := [], projects := [],
      workspace_members := [⟨"w1", "u1", .Member⟩],
      project_members := [], tasks := [], user_devices := [] }
    "u2" "w1" .Viewer
  exact ⟨h.2.1 ⟨"w1", "u1", .Member⟩ (by decide), h2.1 (by decide)⟩

/-- Claim C4: for `addProjectMember` and `removeProjectMember`, for an
existing project the caller passes the authorization gate if and only if they
hold Project Lead on the project or Owner on its parent workspace; and the
checks are ordered — workspace ownership is consulted exactly when the
project-lead check returns false (on an existing project), never otherwise. -/
theorem c4_projectMemberGates_spec (db : DB) (caller projectId : String)
    (proj : ProjectRow)
    (hproj : db.projects.find? (fun p => p.id == projectId) = some proj) :
    ((addProjectMemberGate db caller projectId = .ok ()) ↔
      (checkProjectLeadAccess db caller projectId = true ∨
       checkWorkspaceOwnership db caller proj.workspace_id = true)) ∧
    (addProjectMemberGateT db caller projectId).2
      = !(checkProjectLeadAccess db caller projectId) ∧
    ((removeProjectMemberGate db caller projectId = .ok ()) ↔
      (checkProjectLeadAccess db caller projectId = true ∨
       checkWorkspaceOwnership db caller proj.workspace_id = true)) ∧
    (removeProjectMemberGateT db caller projectId).2
      = !(checkProjectLeadAccess db caller projectId) := by
  cases hlead : checkProjectLeadAccess db caller projectId <;>
    cases hown : checkWorkspaceOwnership db caller proj.workspace_id <;>
      simp [addProjectMemberGate, addProjectMemberGateT,
        removeProjectMemberGate, removeProjectMemberGateT, hproj, hlead, hown]

/-- Store for the C4 witness: `u1` owns workspace `w1` and is not a member of
project `p1` under `w1`. -/
def c4db : DB :=
  { users := [⟨"u1", "alice@example.com", .ACTIVE⟩]
    workspaces := [⟨"w1", "u1"⟩]
    projects := [⟨"p1", "w1"⟩]
    workspace_members := [⟨"w1", "u1", .Owner⟩]
    project_members := []
    tasks := []
    user_devices := [] }

/-- Witness for C4: on a concrete store where the caller owns the parent
workspace but is not Project Lead, both gates pass and both gates consulted
workspace ownership. -/
theorem c4_projectMemberGates_witness :
    addProjectMemberGate c4db "u1" "p1" = .ok () ∧
    (addProjectMemberGateT c4db "u1" "p1").2 = true ∧
    removeProjectMemberGate c4db "u1" "p1" = .ok () ∧
    (removeProjectMemberGateT c4db "u1" "p1").2 = true := by
  have h := c4_projectMemberGates_spec c4db "u1" "p1" ⟨"p1", "w1"⟩ (by decide)
  refine ⟨h.1.mpr (Or.inr (by decide)), h.2.1.trans (by decide),
    h.2.2.1.mpr (Or.inr (by decide)), h.2.2.2.trans (by decide)⟩

/-- Claim C5: for every caller who passed the `addProjectMember`
authorization gate, if the target user holds no membership row in the
project's parent workspace, the mutation fails with the precondition error
`User must be a workspace member first` — an error distinct from the
permissions error — and, the result being an error, no project-membership
row is created. -/
theorem c5_addProjectMember_precondition (db : DB) (ctx : Context)
    (caller target projectId : String) (proj : ProjectRow)
    (hctx : ctx.userId = some caller)
    (hgate : addProjectMemberGate db caller projectId = .ok ())
    (hproj : db.projects.find? (fun p => p.id == projectId) = some proj)
    (hmem : db.workspace_members.find?
      (fun r => r.workspace_id == proj.workspace_id && r.user_id == target) = none) :
    addProjectMember db ctx projectId target
      = .error "User must be a workspace member first" ∧
    ("User must be a workspace member first" : String)
      ≠ "Forbidden: Project Lead or Workspace Owner access required" := by
  refine ⟨?_, by decide⟩
  simp [addProjectMember, hctx, hgate, hproj, checkWorkspaceAccess, hmem]

/-- Store for the C5 witness: `u1` leads project `p1` in workspace `w1`;
target `u3` has no `w1` membership. -/
def c5db : DB :=
  { users := [⟨"u1", "alice@example.com", .ACTIVE⟩, ⟨"u3", "carol@example.com", .ACTIVE⟩]
    workspaces := [⟨"w1", "u1"⟩]
    projects := [⟨"p1", "w1"⟩]
    workspace_members := [⟨"w1", "u1", .Owner⟩]
    project_members := [⟨"p1", "u1", .ProjectLead⟩]
    tasks := []
    user_devices := [] }

/-- Witness for C5: adding `u3` (not a `w1` member) to `p1` by its lead
fails with the precondition error. -/
theorem c5_addProjectMember_precondition_witness :
    addProjectMember c5db ⟨some "u1", none⟩ "p1" "u3"
      = .error "User must be a workspace member first" := by
  exact (c5_addProjectMember_precondition c5db ⟨some "u1", none⟩ "u1" "u3" "p1"
    ⟨"p1", "w1"⟩ rfl rfl (by decide) (by decide)).1

/-- Store for the C2 failing input: `u1` owns workspace `w1`, holds no
membership on project `p1` under `w1`; `u2` is a `w1` Member and a `p1`
Contributor. -/
def c2db : DB :=
  { users := [⟨"u1", "alice@example.com", .ACTIVE⟩, ⟨"u2", "bob@example.com", .ACTIVE⟩]
    workspaces := [⟨"w1", "u1"⟩]
    projects := [⟨"p1", "w1"⟩]
    workspace_members := [⟨"w1", "u1", .Owner⟩, ⟨"w1", "u2", .Member⟩]
    project_members := [⟨"p1", "u2", .Contributor⟩]
    tasks := []
    user_devices := [] }

/-- Claim C2 (code bug): on the failing input, the Workspace Owner `u1`
(holding no Project Lead membership on `p1`) succeeds at `addProjectMember`
and `removeProjectMember`, but `updateProjectMemberRole` rejects them with
the permissions error: the source passes the project id to
`checkWorkspaceOwnership`, which looks for a workspace whose id equals the
project id and finds none. -/
theorem c2_updateProjectMemberRole_bug :
    checkWorkspaceOwnership c2db "u1" "w1" = true ∧
    checkProjectLeadAccess c2db "u1" "p1" = false ∧
    addProjectMember c2db ⟨some "u1", none⟩ "p1" "u2" = .ok (c2db, true) ∧
    removeProjectMember c2db ⟨some "u1", none⟩ "p1" "u2"
      = .ok ({ c2db with project_members := [] }, true) ∧
    checkWorkspaceOwnership c2db "u1" "p1" = false ∧
    updateProjectMemberRole c2db ⟨some "u1", none⟩ "p1" "u2" .ProjectViewer
      = .error "Forbidden: Project Lead or Workspace Owner access required" := by
  exact ⟨rfl, rfl, rfl, rfl, rfl, rfl⟩

/-- Store for C1: `u1` is BANNED but is a Viewer of workspace `w1`. -/
def c1db : DB :=
  { users := [⟨"u1", "banned@example.com", .BANNED⟩]
    workspaces := [⟨"w1", "u1"⟩]
    projects := []
    workspace_members := [⟨"w1", "u1", .Viewer⟩]
    project_members := []
    tasks := []
    user_devices := [] }

/-- JWT configuration for C1 with distinct, explicitly set secrets. -/
def c1cfg : JwtConfig := jwtConfigOf (some "acc-secret") (some "ref-secret") none none

/-- A structurally valid, unexpired access token for the banned user `u1`. -/
def c1token : SignedToken :=
  generateAccessToken c1cfg ⟨"u1", "banned@example.com", .BANNED⟩

/-- Counterexample to C1: the banned user `u1` presents a structurally valid
access token; the GraphQL context resolves their id, the `me` query returns
their user row, and the subscription attach succeeds — the operations execute
instead of being rejected with Forbidden. -/
theorem c1_counterexample :
    verifyAccessToken c1cfg c1token = some ⟨"u1", "banned@example.com", .BANNED⟩ ∧
    getUserById c1db "u1" = some ⟨"u1", "banned@example.com", .BANNED⟩ ∧
    meResolver c1db (getContext c1db c1cfg (some c1token))
      = .ok (some ⟨"u1", "banned@example.com", .BANNED⟩) ∧
    taskStatusUpdatedSubscribe c1db (getContext c1db c1cfg (some c1token)) "w1"
      = .ok "TASK_STATUS_UPDATED_w1" := by
  exact ⟨rfl, rfl, rfl, rfl⟩

/-- Claim C1 as amended: a BANNED user presenting a structurally valid,
unexpired access token is rejected with Forbidden
(`403 Access denied: Account is banned`) by the REST `authenticate`
middleware, before any handler body runs; but the GraphQL path does not
consult `global_status`: `getContext` resolves the banned user's id and the
resolvers proceed (here the `me` query returns the user row). -/
theorem c1_banned_gate (db : DB) (cfg : JwtConfig) (t : SignedToken) (u : User)
    (hkey : t.key = cfg.secret)
    (hu : getUserById db t.payload.userId = some u)
    (hb : u.global_status = .BANNED) :
    authenticate db cfg (some t) = .status403 "Access denied: Account is banned" ∧
    getContext db cfg (some t)
      = { userId := some t.payload.userId, user := some u } ∧
    meResolver db (getContext db cfg (some t)) = .ok (some u) := by
  refine ⟨?_, ?_, ?_⟩ <;>
    simp [authenticate, getContext, meResolver, verifyAccessToken, hkey, hu, hb]

/-- Witness for C1's amended claim at the concrete banned user `u1`. -/
theorem c1_banned_gate_witness :
    authenticate c1db c1cfg (some c1token)
      = .status403 "Access denied: Account is banned" ∧
    meResolver c1db (getContext c1db c1cfg (some c1token))
      = .ok (some ⟨"u1", "banned@example.com", .BANNED⟩) := by
  have h := c1_banned_gate c1db c1cfg c1token
    ⟨"u1", "banned@example.com", .BANNED⟩ rfl rfl rfl
  exact ⟨h.1, h.2.2⟩

/-- Store for C6: the session row for `(u1, d1)` exists and is not revoked. -/
def c6db : DB :=
  { users := []
    workspaces := []
    projects := []
    workspace_members := []
    project_members := []
    tasks := []
    user_devices := [⟨"u1", "d1", none, none, 0, false, none⟩] }

/-- Claim C6 (code bug): a session row for `(u1, d1)` exists and is not
marked revoked, yet `isDeviceRevoked` answers `true` — indeed the source's
`rows[0]?.is_revoked || true` makes the function constantly `true`, so the
claimed `false` case is unreachable. -/
theorem c6_isDeviceRevoked_bug :
    (c6db.user_devices.find? (fun r => r.user_id == "u1" && r.device_id == "d1")
      = some ⟨"u1", "d1", none, none, 0, false, none⟩) ∧
    isDeviceRevoked c6db "u1" "d1" = true ∧
    (∀ db u d, isDeviceRevoked db u d = true) := by
  refine ⟨by decide, rfl, fun db u d => ?_⟩
  unfold isDeviceRevoked
  cases (db.user_devices.find?
      (fun r => r.user_id == u && r.device_id == d)).map (fun r => r.is_revoked) with
  | none => rfl
  | some b => simp

/-- Empty store for C7. -/
def c7db : DB :=
  { users := [⟨"u1", "alice@example.com", .ACTIVE⟩]
    workspaces := []
    projects := []
    workspace_members := []
    project_members := []
    tasks := []
    user_devices := [] }

/-- Claim C7 (code bug): `u1` logs in, which records the session row with the
fresh server-generated device id `dev-4f9a` (never returned to the client);
`u1` then calls `POST /auth/logout` with a valid access credential, the
refresh cookie present, and no `x-device-id` header.  The handler clears the
cookie but revokes the placeholder device `'unknown'`, so the row recorded at
login is left with `is_revoked = FALSE` and no revocation timestamp —
contradicting the claim that the caller's session row is revoked. -/
theorem c7_logout_bug :
    (logoutHandler (saveDevice c7db "u1" "dev-4f9a" (some "1.2.3.4")
        (some "test-agent") 100) "u1" true none 200).clearedRefreshCookie = true ∧
    (logoutHandler (saveDevice c7db "u1" "dev-4f9a" (some "1.2.3.4")
        (some "test-agent") 100) "u1" true none 200).db.user_devices
      = [⟨"u1", "dev-4f9a", some "1.2.3.4", some "test-agent", 100, false, none⟩] := by
  exact ⟨rfl, by decide⟩

/-- The `config.jwt` produced with no JWT environment variables set: both
secrets fall back to the same default string. -/
def c8DefaultConfig : JwtConfig := jwtConfigOf none none none none

/-- A sample claim set for C8. -/
def c8payload : JWTPayload := ⟨"u1", "alice@example.com", .ACTIVE⟩

/-- Counterexample to C8: under the default configuration both secrets are
the identical string `change-this-in-production`, so a token produced by
`generateRefreshToken` is ACCEPTED by `verifyAccessToken` (and vice versa)
rather than rejected. -/
theorem c8_counterexample :
    c8DefaultConfig.secret = c8DefaultConfig.refreshSecret ∧
    verifyAccessToken c8DefaultConfig (generateRefreshToken c8DefaultConfig c8payload)
      = some c8payload ∧
    verifyRefreshToken c8DefaultConfig (generateAccessToken c8DefaultConfig c8payload)
      = some c8payload := by
  exact ⟨rfl, rfl, rfl⟩

/-- Claim C8 as amended: whenever the two configured secrets differ, the
token kinds are independent — for every claim set, a refresh token is
rejected by `verifyAccessToken` and an access token is rejected by
`verifyRefreshToken`; the independence fails exactly under configurations
(such as the defaults) where the two secrets coincide. -/
theorem c8_secret_independence (cfg : JwtConfig) (p : JWTPayload)
    (h : cfg.secret ≠ cfg.refreshSecret) :
    verifyAccessToken cfg (generateRefreshToken cfg p) = none ∧
    verifyRefreshToken cfg (generateAccessToken cfg p) = none := by
  constructor
  · simp only [verifyAccessToken, generateRefreshToken]
    rw [if_neg]
    simp only [beq_iff_eq]
    intro hh
    exact h hh.symm
  · simp only [verifyRefreshToken, generateAccessToken]
    rw [if_neg]
    simp only [beq_iff_eq]
    exact h

/-- Witness for C8's amended claim with two explicitly distinct secrets. -/
theorem c8_secret_independence_witness :
    verifyAccessToken (jwtConfigOf (some "s1") (some "s2") none none)
      (generateRefreshToken (jwtConfigOf (some "s1") (some "s2") none none) c8payload)
      = none ∧
    verifyRefreshToken (jwtConfigOf (some "s1") (some "s2") none none)
      (generateAccessToken (jwtConfigOf (some "s1") (some "s2") none none) c8payload)
      = none := by
  exact c8_secret_independence (jwtConfigOf (some "s1") (some "s2") none none)
    c8payload (by decide)

/-- Store for C9 in which task `t1` exists in project `p1` (workspace `w1`);
caller `u2` has no membership anywhere. -/
def c9dbExists : DB :=
  { users := [⟨"u1", "alice@example.com", .ACTIVE⟩, ⟨"u2", "eve@example.com", .ACTIVE⟩]
    workspaces := [⟨"w1", "u1"⟩]
    projects := [⟨"p1", "w1"⟩]
    workspace_members := [⟨"w1", "u1", .Owner⟩]
    project_members := [⟨"p1", "u1", .ProjectLead⟩]
    tasks := [⟨"t1", "p1", "Ship it", "TODO"⟩]
    user_devices := [] }

/-- The same store with task `t1` absent. -/
def c9dbMissing : DB :=
  { users := [⟨"u1", "alice@example.com", .ACTIVE⟩, ⟨"u2", "eve@example.com", .ACTIVE⟩]
    workspaces := [⟨"w1", "u1"⟩]
    projects := [⟨"p1", "w1"⟩]
    workspace_members := [⟨"w1", "u1", .Owner⟩]
    project_members := [⟨"p1", "u1", .ProjectLead⟩]
    tasks := []
    user_devices := [] }

/-- Counterexample to C9: `u2` is not authorized to read task `t1`
(no project access), yet `getTask` answers `Forbidden` when the task exists
and `Task not found` when it does not — two distinguishable observables, and
the NotFound arrives with no authorization confirmed. -/
theorem c9_counterexample :
    (checkProjectAccess c9dbExists "u2" "p1" .ProjectViewer).hasAccess = false ∧
    getTask c9dbExists ⟨some "u2", none⟩ "t1" = .error "Forbidden" ∧
    getTask c9dbMissing ⟨some "u2", none⟩ "t1" = .error "Task not found" ∧
    ("Forbidden" : String) ≠ "Task not found" := by
  exact ⟨rfl, rfl, rfl, by decide⟩

/-- Claim C9 as amended: `getWorkspace` preserves the invariant — an
unauthorized caller receives the permissions error regardless of whether the
workspace exists; the task path does not — `getTask` answers `Task not found`
for a missing task before any authorization check, and `Forbidden` for an
existing task the caller cannot access, so task existence is observable. -/
theorem c9_error_ordering (db : DB) (ctx : Context) (uid id : String)
    (hctx : ctx.userId = some uid) :
    (db.tasks.find? (fun t => t.id == id) = none →
      getTask db ctx id = .error "Task not found") ∧
    (∀ task, db.tasks.find? (fun t => t.id == id) = some task →
      (checkProjectAccess db uid task.project_id .ProjectViewer).hasAccess = false →
      getTask db ctx id = .error "Forbidden") ∧
    ((checkWorkspaceAccess db uid id .Viewer).hasAccess = false →
      getWorkspace db ctx id
        = .error "Insufficient permissions: Requires Viewer role or higher") := by
  refine ⟨fun h => ?_, fun task h hacc => ?_, fun hacc => ?_⟩
  · simp [getTask, hctx, h]
  · simp [getTask, hctx, h, hacc]
  · simp [getWorkspace, hctx, requireWorkspaceAccess, hacc, workspaceRoleName]

/-- Witness for C9's amended claim on the two concrete stores. -/
theorem c9_error_ordering_witness :
    getTask c9dbMissing ⟨some "u2", none⟩ "t1" = .error "Task not found" ∧
    getTask c9dbExists ⟨some "u2", none⟩ "t1" = .error "Forbidden" ∧
    getWorkspace c9dbExists ⟨some "u2", none⟩ "w1"
      = .error "Insufficient permissions: Requires Viewer role or higher" := by
  have hm := c9_error_ordering c9dbMissing ⟨some "u2", none⟩ "u2" "t1" rfl
  have he := c9_error_ordering c9dbExists ⟨some "u2", none⟩ "u2" "t1" rfl
  have hw := c9_error_ordering c9dbExists ⟨some "u2", none⟩ "u2" "w1" rfl
  exact ⟨hm.1 (by decide), he.2.1 ⟨"t1", "p1", "Ship it", "TODO"⟩ (by decide) (by decide),
    hw.2.2 (by decide)⟩

/-- Claim C10: when the target already holds a membership row, the
`ON CONFLICT DO NOTHING` inserts of `addWorkspaceMember` and
`addProjectMember` leave the store exactly unchanged (so an existing Owner or
Project Lead role is not overwritten by the default Member/Contributor role)
and both mutations still return `true`. -/
theorem c10_addMember_conflict_noop (db : DB) (ctx : Context)
    (caller workspaceId projectId targetW targetP : String) :
    (ctx.userId = some caller →
      checkWorkspaceOwnership db caller workspaceId = true →
      db.workspace_members.any
        (fun r => r.workspace_id == workspaceId && r.user_id == targetW) = true →
      addWorkspaceMember db ctx workspaceId targetW = .ok (db, true)) ∧
    (ctx.userId = some caller →
      addProjectMemberGate db caller projectId = .ok () →
      (∀ proj, db.projects.find? (fun p => p.id == projectId) = some proj →
        (checkWorkspaceAccess db targetP proj.workspace_id .Viewer).hasAccess = true →
        db.project_members.any
          (fun r => r.project_id == projectId && r.user_id == targetP) = true →
        addProjectMember db ctx projectId targetP = .ok (db, true))) := by
  refine ⟨fun hctx hown hconf => ?_, fun hctx hgate proj hproj hacc hconf => ?_⟩
  · simp [addWorkspaceMember, hctx, hown, hconf]
  · simp [addProjectMember, hctx, hgate, hproj, hacc, hconf]

/-- Store for the C10 witness: `u1` owns `w1` and leads `p1`; the target `u2`
already holds the Owner role in `w1` and the Project Lead role in `p1`. -/
def c10db : DB :=
  { users := [⟨"u1", "alice@example.com", .ACTIVE⟩, ⟨"u2", "bob@example.com", .ACTIVE⟩]
    workspaces := [⟨"w1", "u1"⟩]
    projects := [⟨"p1", "w1"⟩]
    workspace_members := [⟨"w1", "u1", .Owner⟩, ⟨"w1", "u2", .Owner⟩]
    project_members := [⟨"p1", "u1", .ProjectLead⟩, ⟨"p1", "u2", .ProjectLead⟩]
    tasks := []
    user_devices := [] }

/-- Witness for C10: re-adding the already-Owner / already-Lead target
returns `true` with the store unchanged — the elevated roles survive. -/
theorem c10_addMember_conflict_noop_witness :
    addWorkspaceMember c10db ⟨some "u1", none⟩ "w1" "u2" = .ok (c10db, true) ∧
    addProjectMember c10db ⟨some "u1", none⟩ "p1" "u2" = .ok (c10db, true) := by
  have h := c10_addMember_conflict_noop c10db ⟨some "u1", none⟩ "u1" "w1" "p1" "u2" "u2"
  exact ⟨h.1 rfl (by decide) (by decide),
    h.2 rfl rfl ⟨"p1", "w1"⟩ (by decide) (by decide) (by decide)⟩

end N4PCC
